import Mathlib

/-!
Verification development for the tide-torah service.

The Python source is embedded shallowly: civil dates become a `Date`
structure with day-level arithmetic through a proleptic Gregorian ordinal
(the semantics of Python `datetime` subtraction at day granularity),
Python floats that only ever hold exact decimal/rational values become
`ℚ`, Python `int()` truncation becomes `pyInt`, dictionaries returned by
the calculators become structures, and `try/except` bodies become
`Except String`-valued computations.  External libraries (ephem, astral,
hebrewcal, cachetools) are not part of the repository; their outputs are
taken as function parameters, and the cache is modelled from the spec's
contract.
-/

namespace TideTorah

/-- A civil (Gregorian) calendar date, as carried by Python `datetime`
at day granularity. -/
structure Date where
  year : Nat
  month : Nat
  day : Nat
deriving DecidableEq, Repr

/-- Gregorian leap-year test, as in Python's `calendar.isleap` /
`datetime` internals. -/
def isLeap (y : Nat) : Bool :=
  y % 4 == 0 && (y % 100 != 0 || y % 400 == 0)

/-- Cumulative days before the given month in a non-leap year
(`datetime` internals). -/
def daysBeforeMonth (m : Nat) : Nat :=
  match m with
  | 1 => 0 | 2 => 31 | 3 => 59 | 4 => 90 | 5 => 120 | 6 => 151
  | 7 => 181 | 8 => 212 | 9 => 243 | 10 => 273 | 11 => 304 | _ => 334

/-- Number of days in a month (`datetime` validity rules). -/
def daysInMonth (y m : Nat) : Nat :=
  match m with
  | 2 => if isLeap y then 29 else 28
  | 4 => 30 | 6 => 30 | 9 => 30 | 11 => 30
  | _ => 31

/-- The dates representable by Python `datetime`. -/
def Date.Valid (d : Date) : Prop :=
  1 ≤ d.year ∧ d.year ≤ 9999 ∧ 1 ≤ d.month ∧ d.month ≤ 12 ∧
    1 ≤ d.day ∧ d.day ≤ daysInMonth d.year d.month

instance (d : Date) : Decidable d.Valid := by
  unfold Date.Valid; infer_instance

/-- Proleptic Gregorian ordinal of a date (Python `date.toordinal`):
day 1 is 0001-01-01.  Differences of ordinals are the day-level
semantics of Python `datetime` subtraction (`(a - b).days`). -/
def toOrdinal (d : Date) : Nat :=
  let y := d.year - 1
  365 * y + (y / 4 - y / 100) + y / 400 +
    daysBeforeMonth d.month +
    (if isLeap d.year && d.month > 2 then 1 else 0) +
    d.day

/-- Day difference `(a - b).days` between two dates at the same time of
day, as an integer. -/
def dayDiff (a b : Date) : Int :=
  (toOrdinal a : Int) - (toOrdinal b : Int)

/-- A Python `datetime` at day granularity together with its
timezone-awareness: `datetime.strptime` and bare `datetime(y, m, d)`
constructors yield naive values, `astimezone` yields aware ones.
Awareness matters because Python refuses to subtract a naive datetime
from an aware one. -/
structure PyDatetime where
  date : Date
  tzaware : Bool
deriving DecidableEq, Repr

/-- A naive datetime, as produced by `datetime.strptime` or
`datetime(y, m, d)`. -/
def naiveDt (d : Date) : PyDatetime :=
  ⟨d, false⟩

/-- `date.astimezone(self.israel_tz)`: the result is timezone-aware;
at day granularity the calendar date is preserved. -/
def astimezone (t : PyDatetime) : PyDatetime :=
  ⟨t.date, true⟩

/-- `(a - b).days` on Python datetimes: raises
`TypeError: can't subtract offset-naive and offset-aware datetimes`
(whose `str` is the message below) when exactly one operand is aware,
otherwise the whole-day difference. -/
def dt_sub_days (a b : PyDatetime) : Except String Int :=
  if a.tzaware != b.tzaware then
    .error "can't subtract offset-naive and offset-aware datetimes"
  else .ok (dayDiff a.date b.date)

/-- `HebrewDateCalculator._calculate_omer_day`: the Omer day, counted
from the source's fixed April-15 placeholder for Passover.
`datetime(date.year, 4, 15)` is naive, while the caller passes the
aware date produced by `astimezone`, so the subtraction raises on
every call the source can reach. -/
def calculate_omer_day (date : PyDatetime) : Except String (Option Int) :=
  let pesach_start : PyDatetime := naiveDt ⟨date.date.year, 4, 15⟩
  match dt_sub_days date pesach_start with
  | .error e => .error e
  | .ok days => .ok (if 0 ≤ days ∧ days < 49 then some (days + 1) else none)

/-- Python `int()` applied to an exact rational: truncation toward
zero. -/
def pyInt (q : ℚ) : Int :=
  if 0 ≤ q then ⌊q⌋ else ⌈q⌉

/-- The fixed 12-name zodiac list shared by `_get_mazal`,
`_get_zodiac_sign` and `_get_zodiac`. -/
def mazalot : List String :=
  ["Aries", "Taurus", "Gemini", "Cancer",
   "Leo", "Virgo", "Libra", "Scorpio",
   "Sagittarius", "Capricorn", "Aquarius", "Pisces"]

/-- `AstronomyCalculator._get_mazal`: `mazalot[int(position) % 12]`. -/
def get_mazal (position : ℚ) : String :=
  mazalot.getD ((pyInt position) % 12).toNat ""

/-- `AstronomyCalculator._get_zodiac_sign`: identical body to
`_get_mazal`. -/
def get_zodiac_sign (position : ℚ) : String :=
  mazalot.getD ((pyInt position) % 12).toNat ""

/-- `HebrewDateCalculator._get_zodiac`: Julian-day-based 12-cycle.
`datetime(1, 1, 1)` is naive, so with the aware date the caller passes,
the subtraction raises the same `TypeError` as the Omer calculation. -/
def get_zodiac (date : PyDatetime) : Except String String :=
  match dt_sub_days date (naiveDt ⟨1, 1, 1⟩) with
  | .error e => .error e
  | .ok diff =>
    let jd : Int := diff + 1721425
    .ok (mazalot.getD ((jd - 1) % 12).toNat "")

/-- The fixed 8-name moon-phase list of `_calculate_moon_phase`. -/
def moonPhases : List String :=
  ["New Moon", "Waxing Crescent", "First Quarter",
   "Waxing Gibbous", "Full Moon", "Waning Gibbous",
   "Last Quarter", "Waning Crescent"]

/-- The name selected by `_calculate_moon_phase`:
`phases[int((phase / 100) * 8)]`. -/
def moon_phase_name (phase : ℚ) : String :=
  moonPhases.getD (pyInt (phase / 100 * 8)).toNat ""

/-- Zero-pad a number to two digits, as Python `strftime` does for
`%m`, `%d`, `%H`, `%M`. -/
def pad2 (n : Nat) : String :=
  if n < 10 then "0" ++ toString n else toString n

/-- Zero-pad a year to four digits (`strftime` `%Y`). -/
def pad4 (n : Nat) : String :=
  if n < 10 then "000" ++ toString n
  else if n < 100 then "00" ++ toString n
  else if n < 1000 then "0" ++ toString n
  else toString n

/-- `date.strftime("%Y-%m-%d")`. -/
def fmtDate (d : Date) : String :=
  pad4 d.year ++ "-" ++ pad2 d.month ++ "-" ++ pad2 d.day

/-- `t.strftime("%H:%M")` for a time of day given in minutes since
midnight. -/
def fmtHHMM (t : Nat) : String :=
  pad2 (t / 60 % 24) ++ ":" ++ pad2 (t % 60)

/-- Python `str.split('-')` on a character list. -/
def splitDash : List Char → List (List Char)
  | [] => [[]]
  | c :: rest =>
    let r := splitDash rest
    if c = '-' then [] :: r
    else
      match r with
      | h :: t => (c :: h) :: t
      | [] => [[c]]

/-- Is the component a nonempty digit string? -/
def allDigits (l : List Char) : Bool :=
  !l.isEmpty && l.all Char.isDigit

/-- Numeric value of a digit string. -/
def digitsVal (l : List Char) : Nat :=
  l.foldl (fun a c => a * 10 + (c.toNat - 48)) 0

/-- `datetime.strptime(s, "%Y-%m-%d")`: `none` models the `ValueError`
raised on malformed input (wrong shape, non-digits, out-of-range month
or day, year outside `datetime`'s range). -/
def parseDate (s : String) : Option Date :=
  match splitDash s.data with
  | [ys, ms, ds] =>
    if allDigits ys && ys.length ≤ 4 && allDigits ms && ms.length ≤ 2 &&
        allDigits ds && ds.length ≤ 2 then
      let y := digitsVal ys
      let m := digitsVal ms
      let d := digitsVal ds
      if 1 ≤ y && 1 ≤ m && m ≤ 12 && 1 ≤ d && d ≤ daysInMonth y m then
        some ⟨y, m, d⟩
      else none
    else none
  | _ => none

/-- Modelled from the spec: the calculators' cache is a `cachetools.TTLCache`,
an external library not in `src/`; §4.1 gives its contract (`get` treats an
entry of age ≥ `ttlSeconds` as absent; `put` keeps the stored count within
`maxSize`, evicting oldest-insertion first).  The store is a list of
(key, value, insertion time) triples, newest first. -/
abbrev Cache (α : Type) : Type := List (String × α × Nat)

/-- Modelled from the spec: `cache[key]` lookup; an entry whose age has
reached the TTL is absent. -/
def cache_get {α : Type} (ttl : Nat) (key : String) (now : Nat)
    (c : Cache α) : Option α :=
  match c.find? (fun e => e.1 == key) with
  | some e => if now < e.2.2 + ttl then some e.2.1 else none
  | none => none

/-- Modelled from the spec: `cache[key] = v`; replaces any entry with the
same key and truncates to the newest `maxSize` entries (oldest-insertion
eviction). -/
def cache_put {α : Type} (maxSize : Nat) (key : String) (v : α) (now : Nat)
    (c : Cache α) : Cache α :=
  ((key, v, now) :: c.filter (fun e => e.1 != key)).take maxSize

/-- An `astral.LocationInfo` value as built at the two call sites; `none`
in an optional field means the constructor argument was omitted and the
library default applies. -/
structure LocationInfo where
  name : String
  region : String
  tz : Option String
  latitude : Option ℚ
  longitude : Option ℚ
deriving DecidableEq, Repr

/-- `AstronomyCalculator.__init__`: `self.location = LocationInfo("Jerusalem", "Israel")`. -/
def jerusalem_location : LocationInfo :=
  ⟨"Jerusalem", "Israel", none, none, none⟩

/-- The `LocationInfo("Custom Location", "", "Asia/Jerusalem", latitude, longitude)`
built by the daily-schedule route. -/
def custom_location (latitude longitude : ℚ) : LocationInfo :=
  ⟨"Custom Location", "", some "Asia/Jerusalem", some latitude, some longitude⟩

/-- The sun events returned by the external `astral.sun.sun` call, as
minutes since local midnight. -/
structure SunTimes where
  dawn : Nat
  sunrise : Nat
  sunset : Nat
  dusk : Nat
deriving DecidableEq, Repr

/-- The prayer-time slot table built by both
`AstronomyCalculator._calculate_prayer_times` and the daily-schedule
route: each slot holds an "HH:MM" string. -/
structure PrayerTimes where
  alos : String
  sunrise : String
  talit : String
  shacharit : String
  mincha_gedola : String
  mincha_ketana : String
  plag_hamincha : String
  sunset : String
  tzeit_hakochavim : String
deriving DecidableEq, Repr

/-- Build the slot table from one set of sun events, exactly as both
call sites do. -/
def prayer_slot_table (s : SunTimes) : PrayerTimes :=
  { alos := fmtHHMM s.dawn
    sunrise := fmtHHMM s.sunrise
    talit := fmtHHMM s.sunrise
    shacharit := fmtHHMM s.sunrise
    mincha_gedola := fmtHHMM s.sunset
    mincha_ketana := fmtHHMM s.sunset
    plag_hamincha := fmtHHMM s.sunset
    sunset := fmtHHMM s.sunset
    tzeit_hakochavim := fmtHHMM s.dusk }

/-- `AstronomyCalculator._calculate_prayer_times`: calls the external
`sun` routine (passed in as `sunF`, which may raise) on
`self.location.observer` — the fixed `LocationInfo("Jerusalem", "Israel")`
— ignoring the `latitude` and `longitude` parameters. -/
def calculate_prayer_times (sunF : LocationInfo → Date → Except String SunTimes)
    (date : Date) (latitude longitude : ℚ) : Except String PrayerTimes :=
  match sunF jerusalem_location date with
  | .ok s => .ok (prayer_slot_table s)
  | .error e => .error e

/-- The daily-schedule route's slot table: `sun(city.observer, date)` on
the location built from the query's coordinates. -/
def daily_schedule_times (sunF : LocationInfo → Date → Except String SunTimes)
    (latitude longitude : ℚ) (date : Date) : Except String PrayerTimes :=
  match sunF (custom_location latitude longitude) date with
  | .ok s => .ok (prayer_slot_table s)
  | .error e => .error e

/-- Modelled from the spec: output of the external `hebrewcal`
`HebrewDate.from_gregorian` conversion routine, which is not in `src/`;
§4.2 delegates day/month/year, month and year names, the holiday flag,
day of week and the parsha to it. -/
structure HebrewConv where
  day : Int
  month : Int
  year : Int
  month_name : String
  year_name : String
  is_holiday : Bool
  day_of_week : Int
  parsha : String
deriving DecidableEq, Repr

/-- The success-shaped result dictionary of
`HebrewDateCalculator.get_hebrew_date`. -/
structure HebrewDateInfo where
  gregorian_date : String
  hebrew_day : Int
  hebrew_month : Int
  hebrew_year : Int
  hebrew_month_name : String
  hebrew_year_name : String
  is_holiday : Bool
  omer_day : Option Int
  zodiac_sign : String
  day_of_week : Int
  parsha : String
deriving DecidableEq, Repr

/-- `HebrewDateCalculator.get_hebrew_date`: cache check, then the try
block: `astimezone` makes the date aware, the conversion is delegated
to `conv` (which may raise), and the Omer and zodiac computations can
raise the aware-minus-naive `TypeError`; the result dictionary is
cached only on success, and any exception is returned as an error
dictionary, leaving the cache untouched. -/
def get_hebrew_date (maxSize ttl : Nat) (conv : Date → Except String HebrewConv)
    (cache : Cache HebrewDateInfo) (now : Nat) (date : PyDatetime) :
    Except String HebrewDateInfo × Cache HebrewDateInfo :=
  let cache_key := fmtDate date.date
  match cache_get ttl cache_key now cache with
  | some v => (.ok v, cache)
  | none =>
    let date2 := astimezone date
    match conv date2.date with
    | .error e => (.error e, cache)
    | .ok h =>
      match calculate_omer_day date2 with
      | .error e => (.error e, cache)
      | .ok omer =>
        match get_zodiac date2 with
        | .error e => (.error e, cache)
        | .ok zod =>
          let result : HebrewDateInfo :=
            { gregorian_date := fmtDate date2.date
              hebrew_day := h.day
              hebrew_month := h.month
              hebrew_year := h.year
              hebrew_month_name := h.month_name
              hebrew_year_name := h.year_name
              is_holiday := h.is_holiday
              omer_day := omer
              zodiac_sign := zod
              day_of_week := h.day_of_week
              parsha := h.parsha }
          (.ok result, cache_put maxSize cache_key result now cache)

/-- The quantities produced by the external `ephem` calls inside
`get_astronomical_data` and `_calculate_zodiac_positions`: the moon's
illumination percentage and observer altitudes for the moon and sun,
the date-computed altitudes of the seven bodies, and the moon age in
days from `_calculate_moon_age`. -/
structure EphemData where
  moon_phase_pct : ℚ
  moon_alt : ℚ
  sun_alt : ℚ
  sun_body_alt : ℚ
  moon_body_alt : ℚ
  mercury_alt : ℚ
  venus_alt : ℚ
  mars_alt : ℚ
  jupiter_alt : ℚ
  saturn_alt : ℚ
  moon_age : Int
deriving DecidableEq, Repr

/-- One value of the `zodiac_positions` dictionary. -/
structure ZodiacEntry where
  constellation : String
  degree : ℚ
  sign : String
deriving DecidableEq, Repr

/-- The moon phase dictionary of `_calculate_moon_phase`. -/
structure PhaseInfo where
  name : String
  percentage : ℚ
  age : Int
deriving DecidableEq, Repr

/-- `AstronomyCalculator._calculate_moon_phase` (age comes from the
external `_calculate_moon_age`). -/
def calculate_moon_phase (phase : ℚ) (age : Int) : PhaseInfo :=
  { name := moon_phase_name phase, percentage := phase, age := age }

/-- `AstronomyCalculator._calculate_zodiac_positions`: the seven bodies
in insertion order, each mapped through `_get_mazal` and
`_get_zodiac_sign`. -/
def calculate_zodiac_positions (x : EphemData) : List (String × ZodiacEntry) :=
  [("sun", ⟨get_mazal x.sun_body_alt, x.sun_body_alt, get_zodiac_sign x.sun_body_alt⟩),
   ("moon", ⟨get_mazal x.moon_body_alt, x.moon_body_alt, get_zodiac_sign x.moon_body_alt⟩),
   ("mercury", ⟨get_mazal x.mercury_alt, x.mercury_alt, get_zodiac_sign x.mercury_alt⟩),
   ("venus", ⟨get_mazal x.venus_alt, x.venus_alt, get_zodiac_sign x.venus_alt⟩),
   ("mars", ⟨get_mazal x.mars_alt, x.mars_alt, get_zodiac_sign x.mars_alt⟩),
   ("jupiter", ⟨get_mazal x.jupiter_alt, x.jupiter_alt, get_zodiac_sign x.jupiter_alt⟩),
   ("saturn", ⟨get_mazal x.saturn_alt, x.saturn_alt, get_zodiac_sign x.saturn_alt⟩)]

/-- One entry of the `astronomical_events` list. -/
structure AstroEvent where
  type : String
  time : String
  description : String
deriving DecidableEq, Repr

/-- `AstronomyCalculator._is_lunar_eclipse`: the stub returns `False`
for every date. -/
def is_lunar_eclipse (date : Date) : Bool :=
  false

/-- `AstronomyCalculator._is_solar_eclipse`: the stub returns `False`
for every date. -/
def is_solar_eclipse (date : Date) : Bool :=
  false

/-- `AstronomyCalculator._get_astronomical_events`; `hm` stands for the
`date.strftime("%H:%M")` string of the (time-carrying) datetime, which
our day-level `Date` does not hold — it only appears in the two dead
branches. -/
def get_astronomical_events (date : Date) (hm : String) : List AstroEvent :=
  (if is_lunar_eclipse date then
    [{ type := "lunar_eclipse", time := hm, description := "Lunar eclipse visible" }]
   else []) ++
  (if is_solar_eclipse date then
    [{ type := "solar_eclipse", time := hm, description := "Solar eclipse visible" }]
   else [])

/-- The `moon` part of the snapshot. -/
structure MoonData where
  phase : PhaseInfo
  position : ℚ
  constellation : String
deriving DecidableEq, Repr

/-- The `sun` part of the snapshot. -/
structure SunData where
  position : ℚ
  constellation : String
deriving DecidableEq, Repr

/-- The success-shaped result dictionary of
`AstronomyCalculator.get_astronomical_data`. -/
structure Snapshot where
  date : String
  moon : MoonData
  sun : SunData
  zodiac_positions : List (String × ZodiacEntry)
  prayer_times : PrayerTimes
  astronomical_events : List AstroEvent
deriving DecidableEq, Repr

/-- `AstronomyCalculator.get_astronomical_data`: cache check keyed by
date, latitude and longitude, then the try block with the external
ephem quantities provided by `eph` and the sun events by `sunF` (either
may raise); the snapshot is cached only on success, and any exception
is returned as an error dictionary with the cache untouched. -/
def get_astronomical_data (maxSize ttl : Nat)
    (eph : Date → ℚ → ℚ → Except String EphemData)
    (sunF : LocationInfo → Date → Except String SunTimes) (hm : String)
    (cache : Cache Snapshot) (now : Nat) (date : Date)
    (latitude longitude : ℚ) : Except String Snapshot × Cache Snapshot :=
  let cache_key := fmtDate date ++ "_" ++ toString latitude ++ "_" ++ toString longitude
  match cache_get ttl cache_key now cache with
  | some v => (.ok v, cache)
  | none =>
    match eph date latitude longitude with
    | .error e => (.error e, cache)
    | .ok x =>
      match calculate_prayer_times sunF date latitude longitude with
      | .error e => (.error e, cache)
      | .ok pt =>
        let result : Snapshot :=
          { date := fmtDate date
            moon := { phase := calculate_moon_phase x.moon_phase_pct x.moon_age
                      position := x.moon_alt
                      constellation := get_mazal x.moon_alt }
            sun := { position := x.sun_alt, constellation := get_mazal x.sun_alt }
            zodiac_positions := calculate_zodiac_positions x
            prayer_times := pt
            astronomical_events := get_astronomical_events date hm }
        (.ok result, cache_put maxSize cache_key result now cache)

/-- The JSON body a route hands back: a normal body, a body holding only
an `error` field, or an exception that escaped the handler unhandled
(surfacing as an HTTP 500, not a JSON body). -/
inductive RouteResult (α : Type) where
  | body (a : α)
  | errorBody (msg : String)
  | raised (msg : String)
deriving DecidableEq, Repr

/-- The `/torah/astronomy/{date}` route: parse the date, catching the
`ValueError` and answering the fixed error body; otherwise return the
calculator's dictionary (success- or error-shaped) as the body. -/
def route_astronomy (maxSize ttl : Nat)
    (eph : Date → ℚ → ℚ → Except String EphemData)
    (sunF : LocationInfo → Date → Except String SunTimes) (hm : String)
    (cache : Cache Snapshot) (now : Nat) (date : String)
    (latitude longitude : ℚ) : RouteResult Snapshot :=
  match parseDate date with
  | none => .errorBody "Invalid date format. Please use YYYY-MM-DD"
  | some d =>
    match (get_astronomical_data maxSize ttl eph sunF hm cache now d latitude longitude).1 with
    | .ok r => .body r
    | .error e => .errorBody e

/-- The `/torah/hebrew-date/{date}` route: parse the date, catching the
`ValueError` and answering the fixed error body; otherwise return the
calculator's dictionary as the body. -/
def route_hebrew_date (maxSize ttl : Nat)
    (conv : Date → Except String HebrewConv)
    (cache : Cache HebrewDateInfo) (now : Nat) (date : String) :
    RouteResult HebrewDateInfo :=
  match parseDate date with
  | none => .errorBody "Invalid date format. Please use YYYY-MM-DD"
  | some d =>
    match (get_hebrew_date maxSize ttl conv cache now (naiveDt d)).1 with
    | .ok r => .body r
    | .error e => .errorBody e

/-- The body of the `/prayer/daily-schedule` route. -/
structure ScheduleBody where
  date : String
  prayer_times : PrayerTimes
deriving DecidableEq, Repr

/-- The `/prayer/daily-schedule` route: no `try/except` anywhere, so the
`strptime` `ValueError` on a malformed date string — and any failure of
the `sun` call — escapes the handler unhandled (`RouteResult.raised`). -/
def route_daily_schedule (sunF : LocationInfo → Date → Except String SunTimes)
    (latitude longitude : ℚ) (dateStr : Option String) (today : Date) :
    RouteResult ScheduleBody :=
  let onDate (d : Date) : RouteResult ScheduleBody :=
    match daily_schedule_times sunF latitude longitude d with
    | .ok pt => .body { date := fmtDate d, prayer_times := pt }
    | .error e => .raised e
  match dateStr with
  | none => onDate today
  | some s =>
    match parseDate s with
    | none => .raised "ValueError: time data does not match format Y-m-d"
    | some d => onDate d

end TideTorah

namespace TideTorah

/-- A concrete stand-in for the external `sun` call, used only to
instantiate closed statements. -/
def sun_stub : LocationInfo → Date → Except String SunTimes :=
  fun _ _ => .ok ⟨300, 360, 1140, 1200⟩

/-- A concrete stand-in for the external ephem quantities, used only to
instantiate closed statements. -/
def eph_stub : Date → ℚ → ℚ → Except String EphemData :=
  fun _ _ _ => .ok ⟨50, 1, 2, 3, 4, 5, 6, 7, 8, 9, 10⟩

/-- Modelled from the spec: an illustrative output of the external
Hebrew-calendar conversion routine (its exact values are delegated to
the `hebrewcal` library, which is not in `src/`); the spec only needs
the parsha to be a non-empty string. -/
def conv_stub_val : HebrewConv :=
  ⟨24, 8, 5784, "Iyar", "", false, 6, "Bamidbar"⟩

/-- A conversion routine that always succeeds with `conv_stub_val`. -/
def conv_stub : Date → Except String HebrewConv :=
  fun _ => .ok conv_stub_val

/-- A conversion routine that always raises. -/
def conv_fail : Date → Except String HebrewConv :=
  fun _ => .error "boom"

/-- An ephem stage that always raises. -/
def eph_fail : Date → ℚ → ℚ → Except String EphemData :=
  fun _ _ _ => .error "boom"

/-- `int()` agrees with the floor on nonnegative rationals. -/
theorem pyInt_of_nonneg {q : ℚ} (h : 0 ≤ q) : pyInt q = ⌊q⌋ := by
  simp [pyInt, h]

/-- Claim C1 (code-bug evidence): `get_hebrew_date` makes the date
timezone-aware before any calendar math, and `_calculate_omer_day`
subtracts the naive `datetime(year, 4, 15)` from it, so the subtraction
raises `TypeError` on every call: whenever the conversion delegate
succeeds on a cache miss, the calculator returns the TypeError message
as the error dictionary and the result never carries an omer_day field
at all — against the claim that the field is present iff
`0 ≤ d < 49`. -/
theorem omer_day_typeerror :
    (∀ d : Date, calculate_omer_day (astimezone (naiveDt d)) =
      .error "can't subtract offset-naive and offset-aware datetimes") ∧
    (∀ (maxSize ttl : Nat) (conv : Date → Except String HebrewConv)
        (cache : Cache HebrewDateInfo) (now : Nat) (d : Date) (c : HebrewConv),
      cache_get ttl (fmtDate d) now cache = none →
      conv d = .ok c →
      get_hebrew_date maxSize ttl conv cache now (naiveDt d) =
        (.error "can't subtract offset-naive and offset-aware datetimes", cache)) := by
  constructor
  · intro d
    rfl
  · intro maxSize ttl conv cache now d c hmiss hconv
    simp [get_hebrew_date, naiveDt, astimezone, hmiss, hconv,
      calculate_omer_day, dt_sub_days]

/-- Witness for C1 at 2024-05-01 with a succeeding conversion stub:
the calculator returns the TypeError dictionary and the unchanged
cache. -/
theorem omer_day_typeerror_witness :
    cache_get 3600 (fmtDate ⟨2024, 5, 1⟩) 0 ([] : Cache HebrewDateInfo) = none ∧
    conv_stub ⟨2024, 5, 1⟩ = .ok conv_stub_val ∧
    get_hebrew_date 1000 3600 conv_stub [] 0 (naiveDt ⟨2024, 5, 1⟩) =
      (.error "can't subtract offset-naive and offset-aware datetimes", []) :=
  ⟨rfl, rfl,
    omer_day_typeerror.2 1000 3600 conv_stub [] 0 ⟨2024, 5, 1⟩ conv_stub_val rfl rfl⟩

/-- Counterexample to C2 as stated: at position `-1/2` the code indexes
by truncation (`int(-0.5) = 0`, giving "Aries") where floor-indexing
gives "Pisces", and periodicity with period 12 fails there. -/
theorem mazal_periodicity_counterexample :
    get_mazal (-1/2) = "Aries" ∧
    mazalot.getD ((⌊(-1/2 : ℚ)⌋) % 12).toNat "" = "Pisces" ∧
    get_mazal (-1/2 + 12) ≠ get_mazal (-1/2) := by
  refine ⟨?_, ?_, ?_⟩
  · have h : pyInt (-1/2) = 0 := by norm_num [pyInt]
    show mazalot.getD ((pyInt (-1/2)) % 12).toNat "" = "Aries"
    rw [h] <;> decide
  · have h : (⌊(-1/2 : ℚ)⌋) = -1 := by norm_num
    rw [h] <;> decide
  · have h1 : pyInt (-1/2 + 12) = 11 := by norm_num [pyInt]
    have h2 : pyInt (-1/2) = 0 := by norm_num [pyInt]
    show mazalot.getD ((pyInt (-1/2 + 12)) % 12).toNat "" ≠
      mazalot.getD ((pyInt (-1/2)) % 12).toNat ""
    rw [h1, h2] <;> decide

/-- Claim C2 (amended): the placeholder constellation mapping returns
the name at index `trunc(p) mod 12` (Python `int()` truncates toward
zero, not floor); it is deterministic, `_get_zodiac_sign` agrees with
it everywhere, and for nonnegative positions truncation agrees with
floor and the mapping is periodic with period 12. -/
theorem mazal_trunc_spec :
    (∀ p : ℚ, get_mazal p = mazalot.getD ((pyInt p) % 12).toNat "" ∧
      get_zodiac_sign p = get_mazal p) ∧
    (∀ p : ℚ, 0 ≤ p → pyInt p = ⌊p⌋ ∧ get_mazal (p + 12) = get_mazal p) := by
  constructor
  · intro p; exact ⟨rfl, rfl⟩
  · intro p hp
    have h1 : pyInt p = ⌊p⌋ := pyInt_of_nonneg hp
    refine ⟨h1, ?_⟩
    have hp12 : (0 : ℚ) ≤ p + 12 := by linarith
    show mazalot.getD ((pyInt (p + 12)) % 12).toNat "" =
      mazalot.getD ((pyInt p) % 12).toNat ""
    rw [pyInt_of_nonneg hp12, h1]
    have hf : ⌊p + 12⌋ = ⌊p⌋ + 12 := by
      have h := Int.floor_add_int p (12 : ℤ)
      push_cast at h
      exact h
    rw [hf]
    congr 1
    omega

/-- Witness for C2 (amended) at position `5/2`. -/
theorem mazal_trunc_spec_witness :
    (0 : ℚ) ≤ 5/2 ∧ get_mazal (5/2 + 12) = get_mazal (5/2) :=
  ⟨by norm_num, (mazal_trunc_spec.2 (5/2) (by norm_num)).2⟩

/-- Claim C3: over `[0, 100)` the phase name is chosen by eight equal
bins of width `25/2 = 12.5`; percentage 0 gives "New Moon" and every
percentage in `[50, 62.5)` gives "Full Moon". -/
theorem moon_phase_bins :
    (∀ (p : ℚ) (k : ℕ), 0 ≤ p → p < 100 → (k : ℚ) * (25/2) ≤ p →
        p < ((k : ℚ) + 1) * (25/2) → moon_phase_name p = moonPhases.getD k "") ∧
    moon_phase_name 0 = "New Moon" ∧
    (∀ p : ℚ, 50 ≤ p → p < 125/2 → moon_phase_name p = "Full Moon") := by
  have main : ∀ (p : ℚ) (k : ℕ), 0 ≤ p → p < 100 → (k : ℚ) * (25/2) ≤ p →
      p < ((k : ℚ) + 1) * (25/2) → moon_phase_name p = moonPhases.getD k "" := by
    intro p k h0 h100 hk1 hk2
    have hq0 : (0 : ℚ) ≤ p / 100 * 8 := by positivity
    have hfl : pyInt (p / 100 * 8) = (k : ℤ) := by
      rw [pyInt_of_nonneg hq0, Int.floor_eq_iff]
      constructor
      · push_cast
        linarith
      · push_cast
        linarith
    show moonPhases.getD (pyInt (p / 100 * 8)).toNat "" = moonPhases.getD k ""
    rw [hfl]
    congr 1 <;> omega
  refine ⟨main, ?_, ?_⟩
  · have h := main 0 0 (by norm_num) (by norm_num) (by norm_num) (by norm_num)
    rw [h] <;> decide
  · intro p h50 h625
    have h := main p 4 (by linarith) (by linarith) (by push_cast; linarith)
      (by push_cast; linarith)
    rw [h] <;> decide

/-- Witness for C3 at percentage 55 (Full Moon bin). -/
theorem moon_phase_bins_witness :
    (50 : ℚ) ≤ 55 ∧ (55 : ℚ) < 125/2 ∧ moon_phase_name 55 = "Full Moon" :=
  ⟨by norm_num, by norm_num, moon_phase_bins.2.2 55 (by norm_num) (by norm_num)⟩

end TideTorah

namespace TideTorah

/-- Claim C4 (code-bug evidence): `_calculate_prayer_times` takes the
sun events from the fixed `LocationInfo("Jerusalem", "Israel")` observer
and never reads its `latitude`/`longitude` parameters, so two calls that
differ only in the coordinates produce identical prayer times — against
the claim that each call uses its own coordinates' sun events. -/
theorem prayer_times_ignore_coordinates
    (sunF : LocationInfo → Date → Except String SunTimes) (d : Date)
    (lat1 lon1 lat2 lon2 : ℚ) :
    calculate_prayer_times sunF d lat1 lon1 =
      calculate_prayer_times sunF d lat2 lon2 := rfl

/-- Counterexample to C5 as stated: the daily-schedule route has no
`try/except`, so the malformed date "2024-13-40" makes the `strptime`
`ValueError` escape the handler instead of producing the error body. -/
theorem daily_schedule_raises_counterexample :
    route_daily_schedule sun_stub 31 35 (some "2024-13-40") ⟨2024, 1, 1⟩ =
      .raised "ValueError: time data does not match format Y-m-d" := by
  decide

/-- Claim C5 (amended): a malformed date string makes the hebrew-date
and astronomy routes return the body
`{"error": "Invalid date format. Please use YYYY-MM-DD"}`, while the
daily-schedule route lets the parse failure propagate as an unhandled
`ValueError`. -/
theorem malformed_date_spec (s : String) (hs : parseDate s = none) :
    (∀ (maxSize ttl : Nat) (eph : Date → ℚ → ℚ → Except String EphemData)
        (sunF : LocationInfo → Date → Except String SunTimes) (hm : String)
        (cache : Cache Snapshot) (now : Nat) (lat lon : ℚ),
      route_astronomy maxSize ttl eph sunF hm cache now s lat lon =
        .errorBody "Invalid date format. Please use YYYY-MM-DD") ∧
    (∀ (maxSize ttl : Nat) (conv : Date → Except String HebrewConv)
        (cache : Cache HebrewDateInfo) (now : Nat),
      route_hebrew_date maxSize ttl conv cache now s =
        .errorBody "Invalid date format. Please use YYYY-MM-DD") ∧
    (∀ (sunF : LocationInfo → Date → Except String SunTimes)
        (lat lon : ℚ) (today : Date),
      route_daily_schedule sunF lat lon (some s) today =
        .raised "ValueError: time data does not match format Y-m-d") := by
  refine ⟨?_, ?_, ?_⟩ <;> intros <;>
    simp [route_astronomy, route_hebrew_date, route_daily_schedule, hs]

/-- Witness for C5 (amended) at the malformed input "2024-13-40". -/
theorem malformed_date_spec_witness :
    parseDate "2024-13-40" = none ∧
    route_hebrew_date 1000 3600 conv_stub [] 0 "2024-13-40" =
      .errorBody "Invalid date format. Please use YYYY-MM-DD" ∧
    route_astronomy 1000 3600 eph_stub sun_stub "00:00" [] 0 "2024-13-40" 31 35 =
      .errorBody "Invalid date format. Please use YYYY-MM-DD" :=
  ⟨by decide,
    (malformed_date_spec "2024-13-40" (by decide)).2.1 1000 3600 conv_stub [] 0,
    (malformed_date_spec "2024-13-40" (by decide)).1 1000 3600 eph_stub sun_stub
      "00:00" [] 0 31 35⟩

/-- Claim C6: for every configuration, a put never leaves more than
`maxSize` stored entries (hence any sequence of insertions from an empty
cache stays within `maxSize`), and a get on a key whose entry was
inserted `ttl` or more seconds ago returns absent. -/
theorem cache_contract (maxSize ttl : Nat) :
    (∀ (α : Type) (k : String) (v : α) (t : Nat) (c : Cache α),
      (cache_put maxSize k v t c).length ≤ maxSize) ∧
    (∀ (α : Type) (ops : List (String × α × Nat)),
      (ops.foldl (fun c e => cache_put maxSize e.1 e.2.1 e.2.2 c)
        ([] : Cache α)).length ≤ maxSize) ∧
    (∀ (α : Type) (k : String) (v : α) (t now : Nat) (c : Cache α),
      t + ttl ≤ now → cache_get ttl k now (cache_put maxSize k v t c) = none) := by
  have hput : ∀ (α : Type) (k : String) (v : α) (t : Nat) (c : Cache α),
      (cache_put maxSize k v t c).length ≤ maxSize := by
    intro α k v t c
    simp only [cache_put]
    exact List.length_take_le _ _
  refine ⟨hput, ?_, ?_⟩
  · intro α ops
    suffices h : ∀ (l : List (String × α × Nat)) (c : Cache α), c.length ≤ maxSize →
        (l.foldl (fun c e => cache_put maxSize e.1 e.2.1 e.2.2 c) c).length ≤ maxSize by
      exact h ops [] (by simp)
    intro l
    induction l with
    | nil => intro c hc; simpa using hc
    | cons e rest ih => intro c hc; exact ih _ (hput α e.1 e.2.1 e.2.2 c)
  · intro α k v t now c h
    rcases maxSize with _ | n
    · simp [cache_put, cache_get]
    · simp only [cache_put, List.take_succ_cons, cache_get]
      rw [List.find?_cons_of_pos _ (by simp)]
      have hlt : ¬ now < t + ttl := by omega
      simp [hlt]

/-- Witness for C6: a fresh entry read exactly `ttl` seconds later is
absent, and the store stays within the bound. -/
theorem cache_contract_witness :
    0 + 3600 ≤ 3600 ∧
    cache_get 3600 "k" 3600 (cache_put 1000 "k" (42 : Nat) 0 ([] : Cache Nat)) = none ∧
    (cache_put 1000 "k" (42 : Nat) 0 ([] : Cache Nat)).length ≤ 1000 :=
  ⟨by decide, (cache_contract 1000 3600).2.2 Nat "k" 42 0 3600 [] (by decide),
    (cache_contract 1000 3600).1 Nat "k" 42 0 []⟩

/-- Claim C7: both eclipse stubs return false on every date, the events
list is empty for every date, and every snapshot the astronomy
calculator computes carries an empty `astronomical_events` list. -/
theorem no_eclipse_events :
    (∀ d : Date, is_lunar_eclipse d = false) ∧
    (∀ d : Date, is_solar_eclipse d = false) ∧
    (∀ (d : Date) (hm : String), get_astronomical_events d hm = []) ∧
    (∀ (maxSize ttl : Nat) (eph : Date → ℚ → ℚ → Except String EphemData)
        (sunF : LocationInfo → Date → Except String SunTimes) (hm : String)
        (cache : Cache Snapshot) (now : Nat) (d : Date) (lat lon : ℚ)
        (x : EphemData) (s : SunTimes),
      cache_get ttl (fmtDate d ++ "_" ++ toString lat ++ "_" ++ toString lon)
        now cache = none →
      eph d lat lon = .ok x →
      sunF jerusalem_location d = .ok s →
      ((get_astronomical_data maxSize ttl eph sunF hm cache now d lat lon).1).map
        Snapshot.astronomical_events = .ok []) := by
  refine ⟨fun d => rfl, fun d => rfl, ?_, ?_⟩
  · intro d hm
    simp [get_astronomical_events, is_lunar_eclipse, is_solar_eclipse]
  · intro maxSize ttl eph sunF hm cache now d lat lon x s hmiss heph hsun
    simp [get_astronomical_data, calculate_prayer_times, hmiss, heph, hsun,
      get_astronomical_events, is_lunar_eclipse, is_solar_eclipse, Except.map]

/-- Witness for C7 on a concrete cache-missing computation. -/
theorem no_eclipse_events_witness :
    cache_get 3600 (fmtDate ⟨2024, 1, 1⟩ ++ "_" ++ toString (31 : ℚ) ++ "_" ++
      toString (35 : ℚ)) 0 ([] : Cache Snapshot) = none ∧
    ((get_astronomical_data 1000 3600 eph_stub sun_stub "00:00" [] 0
      ⟨2024, 1, 1⟩ 31 35).1).map Snapshot.astronomical_events = .ok [] :=
  ⟨rfl, no_eclipse_events.2.2.2 1000 3600 eph_stub sun_stub "00:00" [] 0
    ⟨2024, 1, 1⟩ 31 35 _ _ rfl rfl rfl⟩

/-- Claim C8: in both slot tables, alos carries the dawn instant;
sunrise, talit and shacharit carry the sunrise instant; mincha_gedola,
mincha_ketana, plag_hamincha and sunset carry the sunset instant; and
tzeit_hakochavim carries the dusk instant — slots in the same group are
the identical "HH:MM" string. -/
theorem prayer_slot_groups :
    (∀ (sunF : LocationInfo → Date → Except String SunTimes) (d : Date)
        (lat lon : ℚ) (s : SunTimes), sunF jerusalem_location d = .ok s →
      calculate_prayer_times sunF d lat lon = .ok (prayer_slot_table s)) ∧
    (∀ s : SunTimes,
      (prayer_slot_table s).alos = fmtHHMM s.dawn ∧
      (prayer_slot_table s).sunrise = fmtHHMM s.sunrise ∧
      (prayer_slot_table s).talit = (prayer_slot_table s).sunrise ∧
      (prayer_slot_table s).shacharit = (prayer_slot_table s).sunrise ∧
      (prayer_slot_table s).mincha_gedola = fmtHHMM s.sunset ∧
      (prayer_slot_table s).mincha_ketana = (prayer_slot_table s).sunset ∧
      (prayer_slot_table s).plag_hamincha = (prayer_slot_table s).sunset ∧
      (prayer_slot_table s).sunset = fmtHHMM s.sunset ∧
      (prayer_slot_table s).tzeit_hakochavim = fmtHHMM s.dusk) ∧
    (∀ (sunF : LocationInfo → Date → Except String SunTimes)
        (lat lon : ℚ) (d : Date) (s : SunTimes),
      sunF (custom_location lat lon) d = .ok s →
      daily_schedule_times sunF lat lon d = .ok (prayer_slot_table s)) := by
  refine ⟨?_, ?_, ?_⟩
  · intro sunF d lat lon s hs
    simp [calculate_prayer_times, hs]
  · intro s
    exact ⟨rfl, rfl, rfl, rfl, rfl, rfl, rfl, rfl, rfl⟩
  · intro sunF lat lon d s hs
    simp [daily_schedule_times, hs]

/-- Witness for C8 on concrete sun events. -/
theorem prayer_slot_groups_witness :
    sun_stub jerusalem_location ⟨2024, 1, 1⟩ = .ok ⟨300, 360, 1140, 1200⟩ ∧
    calculate_prayer_times sun_stub ⟨2024, 1, 1⟩ 31 35 =
      .ok (prayer_slot_table ⟨300, 360, 1140, 1200⟩) ∧
    (prayer_slot_table ⟨300, 360, 1140, 1200⟩).talit =
      (prayer_slot_table ⟨300, 360, 1140, 1200⟩).sunrise :=
  ⟨rfl, prayer_slot_groups.1 sun_stub ⟨2024, 1, 1⟩ 31 35 ⟨300, 360, 1140, 1200⟩ rfl,
    (prayer_slot_groups.2.1 ⟨300, 360, 1140, 1200⟩).2.2.1⟩

end TideTorah

namespace TideTorah

/-- Claim C9 (code-bug evidence): the hebrew-date route called with
2024-06-01 does not return a body with the Hebrew fields at all — the
aware-minus-naive subtraction inside `_calculate_omer_day` raises
`TypeError`, the blanket `except` turns it into the error dictionary,
and the route hands that back as the body
`{"error": "can't subtract offset-naive and offset-aware datetimes"}`.
(Even with the subtraction repaired, the code's April-15 Omer window
would put omer_day at 48, not the claimed null.) -/
theorem june1_route_typeerror :
    route_hebrew_date 1000 3600 conv_stub [] 0 "2024-06-01" =
      .errorBody "can't subtract offset-naive and offset-aware datetimes" := by
  decide

/-- Claim C10: on a cache miss, a failure in either calculator's try
block makes it return the error dictionary with the cache unchanged;
moreover a key absent at one instant is still absent at any later
instant of the unchanged cache, so the next call recomputes instead of
seeing a cached error. -/
theorem errors_not_cached :
    (∀ (maxSize ttl : Nat) (conv : Date → Except String HebrewConv)
        (cache : Cache HebrewDateInfo) (now : Nat) (t : PyDatetime) (e : String),
      cache_get ttl (fmtDate t.date) now cache = none →
      conv t.date = .error e →
      get_hebrew_date maxSize ttl conv cache now t = (.error e, cache)) ∧
    (∀ (maxSize ttl : Nat) (eph : Date → ℚ → ℚ → Except String EphemData)
        (sunF : LocationInfo → Date → Except String SunTimes) (hm : String)
        (cache : Cache Snapshot) (now : Nat) (d : Date) (lat lon : ℚ) (e : String),
      cache_get ttl (fmtDate d ++ "_" ++ toString lat ++ "_" ++ toString lon)
        now cache = none →
      eph d lat lon = .error e →
      get_astronomical_data maxSize ttl eph sunF hm cache now d lat lon =
        (.error e, cache)) ∧
    (∀ (α : Type) (ttl : Nat) (key : String) (now now2 : Nat) (cache : Cache α),
      cache_get ttl key now cache = none → now ≤ now2 →
      cache_get ttl key now2 cache = none) := by
  refine ⟨?_, ?_, ?_⟩
  · intro maxSize ttl conv cache now t e hmiss herr
    simp [get_hebrew_date, astimezone, hmiss, herr]
  · intro maxSize ttl eph sunF hm cache now d lat lon e hmiss herr
    simp [get_astronomical_data, hmiss, herr]
  · intro α ttl key now now2 cache h1 h2
    rcases hfind : cache.find? (fun e => e.1 == key) with _ | f
    · simp only [cache_get, hfind]
    · simp only [cache_get, hfind] at h1 ⊢
      by_cases hb : now < f.2.2 + ttl
      · simp [hb] at h1
      · have hb2 : ¬ now2 < f.2.2 + ttl := by omega
        simp [hb2]

/-- Witness for C10: both calculators, called with a failing external
stage on an empty cache, return the error and the empty cache. -/
theorem errors_not_cached_witness :
    cache_get 3600 (fmtDate ⟨2024, 1, 1⟩) 0 ([] : Cache HebrewDateInfo) = none ∧
    conv_fail ⟨2024, 1, 1⟩ = .error "boom" ∧
    get_hebrew_date 1000 3600 conv_fail [] 0 (naiveDt ⟨2024, 1, 1⟩) =
      (.error "boom", []) ∧
    get_astronomical_data 1000 3600 eph_fail sun_stub "00:00" [] 0
      ⟨2024, 1, 1⟩ 31 35 = (.error "boom", []) :=
  ⟨rfl, rfl,
    errors_not_cached.1 1000 3600 conv_fail [] 0 (naiveDt ⟨2024, 1, 1⟩) "boom" rfl rfl,
    errors_not_cached.2.1 1000 3600 eph_fail sun_stub "00:00" [] 0
      ⟨2024, 1, 1⟩ 31 35 "boom" rfl rfl⟩

end TideTorah
